import Mathlib

/-! ixo-blockchain: client-side signing pipeline and validation gates

A shallow embedding of

* `x/bonddoc/client/cli/tx.go` and `x/did/client/cli/tx.go`
  (`IxoSignAndBroadcast`, `unmarshalSovrinDID`, `GetCmdUpdateBondStatus`),
* `x/project/rest/handler.go` (`CreateProjectRequestHandler`),
* `x/payments/internal/types/params.go` (`DefaultParams`, `ValidateParams`),

together with the properties of these functions that the specification states.

Bytes are natural numbers below 256, byte slices and arrays are lists.
A Go `error` value is an `Option String`: `none` is `nil`, `some m` is an
error whose `Error()` text is `m`.
-/

namespace base58

/-- The base58 alphabet of `github.com/btcsuite/btcutil/base58`. -/
def alphabet : List Char :=
  "123456789ABCDEFGHJKLMNPQRSTUVWXYZabcdefghijkmnopqrstuvwxyz".toList

/-- The lookup table `b58` of the library: the index of a character in the
alphabet, and 255 for every character outside it. -/
def b58 (c : Char) : Nat :=
  let i := alphabet.indexOf c
  if i < 58 then i else 255

/-- The accumulation loop of `Decode`, run over the characters from the last
one to the first: `answer += j * b58[c]`, `j *= 58`; a character outside the
alphabet ends the decoding (`none`, where the library returns `[]byte("")`). -/
def decodeLoop : List Char → Nat → Nat → Option Nat
  | [], answer, _ => some answer
  | c :: cs, answer, j =>
    if b58 c = 255 then none else decodeLoop cs (answer + j * b58 c) (j * 58)

/-- The big-endian bytes of a number without leading zeros (`big.Int.Bytes`),
accumulated from the least significant byte; `fuel` bounds the byte count. -/
def bigBytes : Nat → Nat → List Nat → List Nat
  | 0, _, acc => acc
  | fuel + 1, n, acc =>
    if n = 0 then acc else bigBytes fuel (n / 256) (n % 256 :: acc)

/-- The number of leading `'1'` characters (`alphabetIdx0`). -/
def numZeros : List Char → Nat
  | [] => 0
  | c :: cs => if c = '1' then numZeros cs + 1 else 0

/-- The library function `base58.Decode`: the empty slice for a string with a
character outside the alphabet, else one zero byte per leading `'1'` followed by
the big-endian bytes of the base-58 number. -/
def Decode (b : String) : List Nat :=
  match decodeLoop b.toList.reverse 0 1 with
  | none => []
  | some answer =>
    List.replicate (numZeros b.toList) 0 ++ bigBytes b.length answer []

end base58

namespace Ixo

/-- Go's built-in `copy(dst, src)`, as the new contents of `dst`: the first
`min (len dst) (len src)` elements are overwritten, the length is unchanged. -/
def copy (dst src : List Nat) : List Nat :=
  src.take dst.length ++ dst.drop src.length

/-- The `privKey` construction shared by both `IxoSignAndBroadcast` functions
and by `CreateProjectRequestHandler`:
`privKey := [64]byte{}`, `copy(privKey[:], base58.Decode(signKey))`,
`copy(privKey[32:], base58.Decode(verifyKey))`. -/
def assemblePrivKey (signKey verifyKey : String) : List Nat :=
  let privKey := List.replicate 64 0
  let privKey := copy privKey (base58.Decode signKey)
  let privKey := privKey.take 32 ++ copy (privKey.drop 32) (base58.Decode verifyKey)
  privKey

/-- Modelled from the spec: the type `sovrin.Secret` of package `x/ixo/sovrin`,
which is not among the sources; its fields are those of the identity input
format (`seed`, `signKey`, `encryptionPrivateKey`). -/
structure SovrinSecret where
  Seed : String
  SignKey : String
  EncryptionPrivateKey : String
  deriving DecidableEq, Repr

/-- Modelled from the spec: the type `sovrin.SovrinDid` of package
`x/ixo/sovrin`, which is not among the sources; its fields are those of the
identity input format (`did`, `verifyKey`, `encryptionPublicKey`, `secret`). -/
structure SovrinDid where
  Did : String
  VerifyKey : String
  EncryptionPublicKey : String
  Secret : SovrinSecret
  deriving DecidableEq, Repr

/-- The broadcast result `sdk.TxResponse`, reduced to what the callers read:
`Height`, `TxHash` and the text of `String()`. -/
structure TxResponse where
  Height : Int
  TxHash : String
  text : String
  deriving DecidableEq, Repr

/-- The observable actions of a run, in the order in which they happen. -/
inductive Event where
  /-- A message is built by one of the `New...Msg` constructors. -/
  | newMsg
  /-- A call of `ixo.SignIxoMessage` with the identifier `did` and the key `privKey`. -/
  | sign (did : String) (privKey : List Nat)
  /-- The call `ctx.BroadcastTx(bz)`. -/
  | broadcast (bz : List Nat)
  /-- A line written to standard output. -/
  | print (line : String)
  /-- The call `w.WriteHeader(code)`. -/
  | writeHeader (code : Nat)
  /-- The call `w.Write(body)`. -/
  | write (body : String)
  deriving DecidableEq, Repr

/-- How a run ends: the function returns (with `nil` or an error; a function
without result returns `none`), or it panics with a value. -/
inductive Outcome where
  | returned (err : Option String)
  | panicked (value : String)
  deriving DecidableEq, Repr

/-- Modelled from the spec: the type `types.UpdateBondStatusDoc` of package
`x/bonddoc/internal/types`, which is not among the sources; the command fills
its one field `Status` with the status argument. -/
structure UpdateBondStatusDoc where
  Status : String
  deriving DecidableEq, Repr

/-- The collaborators of the command-line functions, which the sources call but
do not define: `msg.GetSignBytes`, `ixo.SignIxoMessage`, `cdc.MarshalJSON`
applied to `ixo.NewIxoTxSingleMsg(msg, signature)`, `ctx.BroadcastTx`,
`json.Unmarshal` into a `SovrinDid` and `types.NewMsgUpdateBondStatus`. -/
structure CLIEnv (Msg : Type) where
  GetSignBytes : Msg → List Nat
  SignIxoMessage : List Nat → String → List Nat → List Nat
  MarshalJSON : Msg × List Nat → Except String (List Nat)
  BroadcastTx : List Nat → Except String TxResponse
  jsonUnmarshal : String → Except String SovrinDid
  NewMsgUpdateBondStatus : String → UpdateBondStatusDoc → SovrinDid → Msg

/-- The function `IxoSignAndBroadcast` of `x/bonddoc/client/cli/tx.go`; the one
of `x/did/client/cli/tx.go` is the same text. A failure of `cdc.MarshalJSON`
is `panic(err)`, a failure of `ctx.BroadcastTx` is `return err`. -/
def IxoSignAndBroadcast {Msg : Type} (env : CLIEnv Msg) (msg : Msg)
    (sovrinDid : SovrinDid) : Outcome × List Event :=
  let privKey := assemblePrivKey sovrinDid.Secret.SignKey sovrinDid.VerifyKey
  let signBytes := env.GetSignBytes msg
  let signature := env.SignIxoMessage signBytes sovrinDid.Did privKey
  let tx := (msg, signature)
  let trace := [Event.sign sovrinDid.Did privKey]
  match env.MarshalJSON tx with
  | .error err => (.panicked err, trace)
  | .ok bz =>
    match env.BroadcastTx bz with
    | .error err => (.returned (some err), trace ++ [.broadcast bz])
    | .ok res =>
      (.returned none,
        trace ++ [.broadcast bz, .print res.text,
          .print ("Committed at block " ++ toString res.Height ++ ". Hash: " ++ res.TxHash)])

/-- The function `unmarshalSovrinDID`: the parsed identity, or a panic with
the error of `json.Unmarshal`. -/
def unmarshalSovrinDID {Msg : Type} (env : CLIEnv Msg) (sovrinJson : String) :
    Except String SovrinDid :=
  env.jsonUnmarshal sovrinJson

/-- Modelled from the spec: the six `BondStatus` constants of package
`x/bonddoc/internal/types`, which is not among the sources; their values are
the six literals of the specification and of the error text of the command. -/
def PreIssuanceStatus : String := "PREISSUANCE"
/-- Modelled from the spec: the constant `types.OpenStatus`, see `PreIssuanceStatus`. -/
def OpenStatus : String := "OPEN"
/-- Modelled from the spec: the constant `types.SuspendedStatus`, see `PreIssuanceStatus`. -/
def SuspendedStatus : String := "SUSPENDED"
/-- Modelled from the spec: the constant `types.ClosedStatus`, see `PreIssuanceStatus`. -/
def ClosedStatus : String := "CLOSED"
/-- Modelled from the spec: the constant `types.SettlementStatus`, see `PreIssuanceStatus`. -/
def SettlementStatus : String := "SETTLEMENT"
/-- Modelled from the spec: the constant `types.EndedStatus`, see `PreIssuanceStatus`. -/
def EndedStatus : String := "ENDED"

/-- The error text of the status check of `update-bond-status`. -/
def statusErrorText : String :=
  "The status must be one of \x27PREISSUANCE\x27, " ++
    "\x27OPEN\x27, \x27SUSPENDED\x27, \x27CLOSED\x27, \x27SETTLEMENT\x27 or \x27ENDED\x27"

/-- The status check of `GetCmdUpdateBondStatus` (the `if` over the six
inequalities): the error it returns, or `none` when the command goes on. -/
def checkBondStatus (status : String) : Option String :=
  let bondStatus := status
  if bondStatus ≠ PreIssuanceStatus ∧
      bondStatus ≠ OpenStatus ∧
      bondStatus ≠ SuspendedStatus ∧
      bondStatus ≠ ClosedStatus ∧
      bondStatus ≠ SettlementStatus ∧
      bondStatus ≠ EndedStatus then
    some statusErrorText
  else none

/-- The `RunE` function of `GetCmdUpdateBondStatus`, applied to its three
arguments `[sender-did] [status] [sovrin-did]`. -/
def GetCmdUpdateBondStatus {Msg : Type} (env : CLIEnv Msg)
    (senderDid status sovrinJson : String) : Outcome × List Event :=
  match unmarshalSovrinDID env sovrinJson with
  | .error sovrinErr => (.panicked sovrinErr, [])
  | .ok sovrinDid =>
    match checkBondStatus status with
    | some err => (.returned (some err), [])
    | none =>
      let updateBondStatusDoc : UpdateBondStatusDoc := { Status := status }
      let msg := env.NewMsgUpdateBondStatus senderDid updateBondStatusDoc sovrinDid
      let run := IxoSignAndBroadcast env msg sovrinDid
      (run.1, Event.newMsg :: run.2)

/-- The collaborators of the REST handler, which the source calls but does not
define: `json.Unmarshal` into a `ProjectDoc` and into a `SovrinDid`,
`project.NewAddProjectMsg`, `ixo.SignIxoMessage`, `tx.String()` and
`cdc.MarshalBinary` applied to `ixo.NewIxoTx(msg, signature)`,
`ctx.BroadcastTx` and `json.MarshalIndent` of its result. -/
structure RestEnv (ProjectDoc Msg Res : Type) where
  unmarshalProjectDoc : String → Except String ProjectDoc
  unmarshalSovrinDid : String → Except String SovrinDid
  NewAddProjectMsg : ProjectDoc → SovrinDid → Msg
  SignIxoMessage : Msg → String → List Nat → List Nat
  txString : Msg × List Nat → String
  MarshalBinary : Msg × List Nat → Except String (List Nat)
  BroadcastTx : List Nat → Except String Res
  MarshalIndent : Res → Except String String

/-- The panic value of the Go runtime for a method call on a nil interface. -/
def nilDereference : String :=
  "runtime error: invalid memory address or nil pointer dereference"

/-- The call `err.Error()` on a Go `error` variable: the text of the error, or
the runtime panic when the variable holds `nil`. -/
def errorText (err : Option String) : Except String String :=
  match err with
  | some text => .ok text
  | none => .error nilDereference

/-- The Go `error` value that a fallible call assigns to its `err` variable. -/
def errOf {α : Type} (r : Except String α) : Option String :=
  match r with
  | .ok _ => none
  | .error text => some text

/-- The handler returned by `CreateProjectRequestHandler`, applied to the query
parameters `projectDoc` and `didDoc` of the request. The variable `err` holds
the result of parsing `projectDoc`; the branch for a `didDoc` that does not
parse tests `sovrinErr` and formats `err.Error()`. -/
def CreateProjectRequestHandler {ProjectDoc Msg Res : Type}
    (env : RestEnv ProjectDoc Msg Res) (projectDocParam didDocParam : String) :
    Outcome × List Event :=
  let parsedDoc := env.unmarshalProjectDoc projectDocParam
  let err := errOf parsedDoc
  match parsedDoc with
  | .error _ =>
    match errorText err with
    | .error value => (.panicked value, [.writeHeader 400])
    | .ok text =>
      (.returned none, [.writeHeader 400,
        .write ("Could not unmarshall projectDoc into struct. Error: " ++ text)])
  | .ok projectDoc =>
    let parsedDid := env.unmarshalSovrinDid didDocParam
    let sovrinErr := errOf parsedDid
    match parsedDid with
    | .error _ =>
      match errorText err with
      | .error value => (.panicked value, [.writeHeader 400])
      | .ok text =>
        (.returned none, [.writeHeader 400,
          .write ("Could not unmarshall didDoc into struct. Error: " ++ text)])
    | .ok sovrinDid =>
      let _ := sovrinErr
      let msg := env.NewAddProjectMsg projectDoc sovrinDid
      let privKey := assemblePrivKey sovrinDid.Secret.SignKey sovrinDid.VerifyKey
      let signature := env.SignIxoMessage msg sovrinDid.Did privKey
      let tx := (msg, signature)
      let trace := [Event.newMsg, Event.sign sovrinDid.Did privKey,
        Event.print ("*******TRANSACTION******* \n " ++ env.txString tx)]
      match env.MarshalBinary tx with
      | .error text =>
        (.returned none, trace ++ [.writeHeader 500,
          .write ("Could not marshall tx to binary. Error: " ++ text)])
      | .ok bz =>
        match env.BroadcastTx bz with
        | .error text =>
          (.returned none, trace ++ [.broadcast bz, .writeHeader 500,
            .write ("Could not broadcast tx. Error: " ++ text)])
        | .ok res =>
          match env.MarshalIndent res with
          | .error text =>
            (.returned none, trace ++ [.broadcast bz, .writeHeader 500, .write text])
          | .ok output => (.returned none, trace ++ [.broadcast bz, .write output])

end Ixo

namespace sdk

/-- The number of decimal places of `sdk.Dec` (`Precision`). -/
def Precision : Nat := 18

/-- The decimal type `sdk.Dec` of the Cosmos SDK: the integer `int` stands for
the number `int / 10 ^ 18`. A `Dec` here always holds an integer; the zero
value `Dec{}` of Go, whose integer is a nil pointer, is not a value of this
type. -/
structure Dec where
  int : Int
  deriving DecidableEq, Repr

/-- The constant `sdk.ZeroDec()`. -/
def ZeroDec : Dec := ⟨0⟩

/-- The constant `sdk.OneDec()`. -/
def OneDec : Dec := ⟨10 ^ Precision⟩

/-- The constructor `sdk.NewDecWithPrec(i, prec)`, the number `i / 10 ^ prec`,
for `prec` up to 18. -/
def NewDecWithPrec (i : Int) (prec : Nat) : Dec := ⟨i * 10 ^ (Precision - prec)⟩

/-- The comparison `d.LT(d2)`. -/
def Dec.LT (d d2 : Dec) : Bool := decide (d.int < d2.int)

/-- The decimal digits of a number, most significant first, accumulated from
the last digit; `fuel` bounds the digit count. -/
def digits : Nat → Nat → List Char → List Char
  | 0, _, acc => acc
  | fuel + 1, n, acc =>
    let acc := Char.ofNat (48 + n % 10) :: acc
    if n / 10 = 0 then acc else digits fuel (n / 10) acc

/-- The decimal text of a natural number (`big.Int.MarshalText` of a
non-negative number). -/
def natText (n : Nat) : List Char := digits (n + 1) n []

/-- The method `Dec.String()`: the digits of the absolute value with the point
before the last 18 of them, padded with zeros after `0.` when there are at most
18 digits, and with `-` in front of a negative number. -/
def Dec.String (d : Dec) : String :=
  let isNeg := decide (d.int < 0)
  let bzInt := natText d.int.natAbs
  let inputSize := bzInt.length
  let bzStr :=
    if inputSize ≤ Precision then
      ['0', '.'] ++ List.replicate (Precision - inputSize) '0' ++ bzInt
    else
      let decPointPlace := inputSize - Precision
      bzInt.take decPointPlace ++ ['.'] ++ bzInt.drop decPointPlace
  if isNeg then String.mk ('-' :: bzStr) else String.mk bzStr

/-- The type `sdk.Coin`: a denomination and an amount. -/
structure Coin where
  Denom : String
  Amount : Int
  deriving DecidableEq, Repr

/-- The type `sdk.Coins`. -/
abbrev Coins := List Coin

/-- The constructor `sdk.NewInt64Coin(denom, amount)`. -/
def NewInt64Coin (denom : String) (amount : Int) : Coin := ⟨denom, amount⟩

/-- The method `Coin.IsNegative()`. -/
def Coin.IsNegative (coin : Coin) : Bool := decide (coin.Amount < 0)

/-- The integer text of `%v` for an amount. -/
def intText (i : Int) : String :=
  if i < 0 then String.mk ('-' :: natText i.natAbs) else String.mk (natText i.natAbs)

/-- The method `Coin.String()`: the amount followed by the denomination. -/
def Coin.String (coin : Coin) : String := intText coin.Amount ++ coin.Denom

/-- The method `Coins.IsAnyNegative()`: some coin has a negative amount. -/
def Coins.IsAnyNegative (coins : Coins) : Bool := coins.any Coin.IsNegative

/-- The method `Coins.String()`: the coins separated by commas, the empty
string for no coin. -/
def Coins.String (coins : Coins) : String :=
  String.intercalate "," (coins.map Coin.String)

end sdk

namespace Payments

open sdk

/-- The payments parameters, `type Params struct`. -/
structure Params where
  IxoFactor : Dec
  ClaimFeeAmount : Coins
  EvaluationFeeAmount : Coins
  NodeFeePercentage : Dec
  EvaluationPayFeePercentage : Dec
  EvaluationPayNodeFeePercentage : Dec
  deriving DecidableEq, Repr

/-- The function `DefaultParams`. The constant `ixo.IxoNativeToken` is defined
outside the sources and is a parameter here; `sdk.NewCoins` of one coin with a
positive amount is the list of that coin. -/
def DefaultParams (IxoNativeToken : String) : Params :=
  { IxoFactor := OneDec
    ClaimFeeAmount := [NewInt64Coin IxoNativeToken 60000000]
    EvaluationFeeAmount := [NewInt64Coin IxoNativeToken 40000000]
    NodeFeePercentage := NewDecWithPrec 5 1
    EvaluationPayFeePercentage := NewDecWithPrec 1 1
    EvaluationPayNodeFeePercentage := NewDecWithPrec 2 1 }

/-- The function `ValidateParams`: `none` is the `nil` result, `some text` an
error with that text. Each test returns at once when it fails. -/
def ValidateParams (params : Params) : Option String :=
  if params.IxoFactor.LT ZeroDec then
    some ("payments parameter IxoFactor should be positive, is " ++
      params.IxoFactor.String ++ " ")
  else if params.ClaimFeeAmount.IsAnyNegative then
    some ("payments parameter ClaimFeeAmount should be positive, is " ++
      params.ClaimFeeAmount.String ++ " ")
  else if params.EvaluationFeeAmount.IsAnyNegative then
    some ("payments parameter EvaluationFeeAmount should be positive, is " ++
      params.EvaluationFeeAmount.String ++ " ")
  else if params.NodeFeePercentage.LT ZeroDec then
    some ("payments parameter NodeFeePercentage should be positive, is " ++
      params.NodeFeePercentage.String ++ " ")
  else if params.EvaluationPayFeePercentage.LT ZeroDec then
    some ("payments parameter EvaluationPayFeePercentage should be positive, is " ++
      params.EvaluationPayFeePercentage.String ++ " ")
  else if params.EvaluationPayNodeFeePercentage.LT ZeroDec then
    some ("payments parameter EvaluationPayNodeFeePercentage should be positive, is " ++
      params.EvaluationPayNodeFeePercentage.String ++ " ")
  else none

/-- The six numeric fields of `Params`, in the order in which `ValidateParams`
tests them. -/
inductive Field where
  | IxoFactor
  | ClaimFeeAmount
  | EvaluationFeeAmount
  | NodeFeePercentage
  | EvaluationPayFeePercentage
  | EvaluationPayNodeFeePercentage
  deriving DecidableEq, Repr

/-- The six fields in the order of the tests. -/
def Field.all : List Field :=
  [.IxoFactor, .ClaimFeeAmount, .EvaluationFeeAmount, .NodeFeePercentage,
    .EvaluationPayFeePercentage, .EvaluationPayNodeFeePercentage]

/-- The name of a field, as the struct declares it. -/
def Field.name : Field → String
  | .IxoFactor => "IxoFactor"
  | .ClaimFeeAmount => "ClaimFeeAmount"
  | .EvaluationFeeAmount => "EvaluationFeeAmount"
  | .NodeFeePercentage => "NodeFeePercentage"
  | .EvaluationPayFeePercentage => "EvaluationPayFeePercentage"
  | .EvaluationPayNodeFeePercentage => "EvaluationPayNodeFeePercentage"

/-- A field is negative: a decimal below zero, or a coin list with a coin whose
amount is below zero. -/
def Field.isNegative (params : Params) : Field → Bool
  | .IxoFactor => decide (params.IxoFactor.int < 0)
  | .ClaimFeeAmount => params.ClaimFeeAmount.any (fun coin => decide (coin.Amount < 0))
  | .EvaluationFeeAmount => params.EvaluationFeeAmount.any (fun coin => decide (coin.Amount < 0))
  | .NodeFeePercentage => decide (params.NodeFeePercentage.int < 0)
  | .EvaluationPayFeePercentage => decide (params.EvaluationPayFeePercentage.int < 0)
  | .EvaluationPayNodeFeePercentage => decide (params.EvaluationPayNodeFeePercentage.int < 0)

/-- The text of the value of a field, as its `String()` method gives it. -/
def Field.valueText (params : Params) : Field → String
  | .IxoFactor => params.IxoFactor.String
  | .ClaimFeeAmount => params.ClaimFeeAmount.String
  | .EvaluationFeeAmount => params.EvaluationFeeAmount.String
  | .NodeFeePercentage => params.NodeFeePercentage.String
  | .EvaluationPayFeePercentage => params.EvaluationPayFeePercentage.String
  | .EvaluationPayNodeFeePercentage => params.EvaluationPayNodeFeePercentage.String

/-- The negative fields of a `Params` value, in the order of the tests. -/
def negativeFields (params : Params) : List Field :=
  Field.all.filter (Field.isNegative params)

/-- The violations that `ValidateParams` reports: its error, when it returns one. -/
def violations (params : Params) : List String :=
  (ValidateParams params).toList

end Payments

namespace Payments

/-- The text of the violation that `ValidateParams` reports for a field. -/
def violationText (params : Params) (field : Field) : String :=
  "payments parameter " ++ field.name ++ " should be positive, is " ++
    field.valueText params ++ " "

end Payments

namespace Sample

open Ixo

/-- The identity of the example request in the comment of
`x/project/rest/handler.go`. -/
def did : SovrinDid :=
  { Did := "CCzPRoyPQsTxVwoAwTZXcK"
    VerifyKey := "77GSw8G26F1e3qwtmzzTvWicZSCCkFKK43NSntpfuJKx"
    EncryptionPublicKey := "AhKmLwrPdPMY3yeBpPqUy8qsphgXGaFEWHNgeUxKa3bV"
    Secret :=
      { Seed := "ea25949b56257a8f16435af37d333fb11258fe9f7a1c2a8eebbebb4d0ea2ae85"
        SignKey := "Gm1dz5ToFcw3Ur7aRqpfzXh9kFJ8C6FZTTueCSGaZDH6"
        EncryptionPrivateKey := "Gm1dz5ToFcw3Ur7aRqpfzXh9kFJ8C6FZTTueCSGaZDH6" } }

/-- An identity whose `signKey` has a character outside the base58 alphabet
and whose `verifyKey` decodes to the single byte 97. -/
def malformedDid : SovrinDid :=
  { Did := "CCzPRoyPQsTxVwoAwTZXcK"
    VerifyKey := "2g"
    EncryptionPublicKey := ""
    Secret := { Seed := "", SignKey := "0", EncryptionPrivateKey := "" } }

/-- The bytes of a text. -/
def bytesOf (text : String) : List Nat := text.toList.map Char.toNat

/-- A test environment for the command-line functions: messages are texts, the
signature is a stand-in computed from its inputs, the ledger accepts every
transaction at height 10 with hash `ABCD`, and the identity parser knows the
one document `did`. -/
def cliEnv : CLIEnv String :=
  { GetSignBytes := bytesOf
    SignIxoMessage := fun signBytes _ privKey => privKey.take 32 ++ signBytes.take 32
    MarshalJSON := fun tx => .ok (bytesOf tx.1 ++ tx.2)
    BroadcastTx := fun _ => .ok { Height := 10, TxHash := "ABCD", text := "ok" }
    jsonUnmarshal := fun json =>
      if json = "did" then .ok did
      else if json = "malformedDid" then .ok malformedDid
      else .error "invalid character"
    NewMsgUpdateBondStatus := fun senderDid doc _ => senderDid ++ ":" ++ doc.Status }

/-- The test environment with a codec that cannot encode the transaction. -/
def marshalFailEnv : CLIEnv String :=
  { cliEnv with MarshalJSON := fun _ => .error "unregistered concrete type" }

/-- The test environment with a node that cannot be reached. -/
def broadcastFailEnv : CLIEnv String :=
  { cliEnv with BroadcastTx := fun _ => .error "connection refused" }

/-- A test environment for the REST handler: project documents and messages
are texts, every text that starts with an opening brace parses as a project
document, and the identity parser knows the one document `did`. -/
def restEnv : RestEnv String String TxResponse :=
  { unmarshalProjectDoc := fun json =>
      if json.front = (Char.ofNat 123) then .ok json
      else .error "invalid character looking for beginning of value"
    unmarshalSovrinDid := fun json =>
      if json = "did" then .ok did
      else .error "invalid character looking for beginning of value"
    NewAddProjectMsg := fun projectDoc sovrinDid => sovrinDid.Did ++ projectDoc
    SignIxoMessage := fun msg _ privKey => privKey.take 32 ++ (bytesOf msg).take 32
    txString := fun tx => tx.1
    MarshalBinary := fun tx => .ok (bytesOf tx.1 ++ tx.2)
    BroadcastTx := fun _ => .ok { Height := 10, TxHash := "ABCD", text := "ok" }
    MarshalIndent := fun res => .ok res.TxHash }

/-- The default parameters with a node fee of -0.1. -/
def negativeNodeFee : Payments.Params :=
  { Payments.DefaultParams "ixo" with NodeFeePercentage := sdk.NewDecWithPrec (-1) 1 }

/-- The default parameters with two negative fields: an `IxoFactor` of -1.0 and
a node fee of -0.1. -/
def twoNegative : Payments.Params :=
  { Payments.DefaultParams "ixo" with
    IxoFactor := sdk.NewDecWithPrec (-1) 0
    NodeFeePercentage := sdk.NewDecWithPrec (-1) 1 }

/-- Parameters that are all zero, with no coins. -/
def allZero : Payments.Params :=
  { IxoFactor := sdk.ZeroDec
    ClaimFeeAmount := []
    EvaluationFeeAmount := [sdk.NewInt64Coin "ixo" 0]
    NodeFeePercentage := sdk.ZeroDec
    EvaluationPayFeePercentage := sdk.ZeroDec
    EvaluationPayNodeFeePercentage := sdk.ZeroDec }

/-- The default parameters with a node fee of 2.5, above 1. -/
def largePercentage : Payments.Params :=
  { Payments.DefaultParams "ixo" with NodeFeePercentage := sdk.NewDecWithPrec 25 1 }

end Sample

/-! ## Key assembly -/

namespace Ixo

theorem copy_length (dst src : List Nat) : (copy dst src).length = dst.length := by
  simp only [copy, List.length_append, List.length_take, List.length_drop]
  omega

theorem copy_getElem? (dst src : List Nat) (i : Nat) :
    (copy dst src)[i]? = if i < src.length ∧ i < dst.length then src[i]? else dst[i]? := by
  unfold copy
  by_cases h : i < src.length ∧ i < dst.length
  · rw [if_pos h, List.getElem?_append_left (by simp; omega), List.getElem?_take_of_lt h.2]
  · rw [if_neg h]
    by_cases h2 : i < dst.length
    · have h3 : src.length ≤ i := by omega
      rw [List.getElem?_append_right (by simp; omega)]
      simp only [List.length_take, List.getElem?_drop]
      congr 1
      omega
    · rw [List.getElem?_eq_none (by simp; omega), List.getElem?_eq_none (by omega)]

theorem copy_of_length_eq (dst src : List Nat) (h : src.length = dst.length) :
    copy dst src = src := by
  simp [copy, ← h]

theorem assemblePrivKey_length (signKey verifyKey : String) :
    (assemblePrivKey signKey verifyKey).length = 64 := by
  simp only [assemblePrivKey, List.length_append, List.length_take, List.length_drop,
    copy_length, List.length_replicate]
  rfl

theorem assemblePrivKey_getD (signKey verifyKey : String) (i : Nat) (hi : i < 64) :
    (assemblePrivKey signKey verifyKey).getD i 0 =
      if i < 32 then (base58.Decode signKey).getD i 0
      else if i - 32 < (base58.Decode verifyKey).length then
        (base58.Decode verifyKey).getD (i - 32) 0
      else (base58.Decode signKey).getD i 0 := by
  simp only [assemblePrivKey, List.getD_eq_getElem?_getD]
  generalize base58.Decode signKey = s
  generalize base58.Decode verifyKey = v
  by_cases h : i < 32
  · rw [if_pos h, List.getElem?_append_left (by simp [copy]; omega),
      List.getElem?_take_of_lt h, copy_getElem?]
    by_cases h2 : i < s.length
    · rw [if_pos ⟨h2, by simp; omega⟩]
    · rw [if_neg (by omega), List.getElem?_eq_none (Nat.le_of_not_lt h2)]
      rw [List.getElem?_replicate, if_pos hi]; rfl
  · rw [if_neg h, List.getElem?_append_right (by simp [copy]; omega)]
    have hl : ((copy (List.replicate 64 0) s).take 32).length = 32 := by simp [copy]; omega
    have hd : ((copy (List.replicate 64 0) s).drop 32).length = 32 := by simp [copy]; omega
    rw [hl, copy_getElem?, hd]
    by_cases h2 : i - 32 < v.length
    · rw [if_pos ⟨h2, by omega⟩, if_pos h2]
    · rw [if_neg (by omega), if_neg h2, List.getElem?_drop, copy_getElem?]
      have e : 32 + (i - 32) = i := by omega
      rw [e]
      by_cases h3 : i < s.length
      · rw [if_pos ⟨h3, by simp; omega⟩]
      · rw [if_neg (by omega), List.getElem?_eq_none (Nat.le_of_not_lt h3)]
        rw [List.getElem?_replicate, if_pos hi]; rfl

theorem assemblePrivKey_drop (signKey verifyKey : String)
    (hv : (base58.Decode verifyKey).length = 32) :
    (assemblePrivKey signKey verifyKey).drop 32 = base58.Decode verifyKey := by
  have hl : ((copy (List.replicate 64 0) (base58.Decode signKey)).take 32).length = 32 := by
    simp [copy_length]
  have hd : (base58.Decode verifyKey).length =
      ((copy (List.replicate 64 0) (base58.Decode signKey)).drop 32).length := by
    simp [copy_length, hv]
  simp only [assemblePrivKey]
  rw [List.drop_append_of_le_length (by omega), List.drop_of_length_le (by omega),
    List.nil_append, copy_of_length_eq _ _ hd]

/-- C1: for every `signKey` and `verifyKey` whose base58 decodings have 32 bytes
each, the assembled key is `decode(signKey)` followed by `decode(verifyKey)` and
has 64 bytes; and bytes 32 to 63 are `decode(verifyKey)` for every other
`signKey` text as well, whatever it holds. -/
theorem assemblePrivKey_eq_append (signKey verifyKey : String)
    (hs : (base58.Decode signKey).length = 32)
    (hv : (base58.Decode verifyKey).length = 32) :
    assemblePrivKey signKey verifyKey = base58.Decode signKey ++ base58.Decode verifyKey ∧
    (assemblePrivKey signKey verifyKey).length = 64 ∧
    ∀ anySignKey : String,
      (assemblePrivKey anySignKey verifyKey).drop 32 = base58.Decode verifyKey := by
  refine ⟨?_, assemblePrivKey_length _ _, fun k => assemblePrivKey_drop k verifyKey hv⟩
  have h := assemblePrivKey_drop signKey verifyKey hv
  have ht : (assemblePrivKey signKey verifyKey).take 32 = base58.Decode signKey := by
    simp only [assemblePrivKey]
    rw [List.take_append_of_le_length (by simp [copy_length]), List.take_take]
    simp [copy, hs]
  rw [← List.take_append_drop 32 (assemblePrivKey signKey verifyKey), h, ht]

/-- The example identity of the REST handler has keys of 32 bytes each, and its
assembled key is the two decodings one after the other. -/
theorem assemblePrivKey_eq_append_witness :
    (base58.Decode Sample.did.Secret.SignKey).length = 32 ∧
    (base58.Decode Sample.did.VerifyKey).length = 32 ∧
    assemblePrivKey Sample.did.Secret.SignKey Sample.did.VerifyKey =
      base58.Decode Sample.did.Secret.SignKey ++ base58.Decode Sample.did.VerifyKey :=
  ⟨by decide, by decide,
    (assemblePrivKey_eq_append Sample.did.Secret.SignKey Sample.did.VerifyKey
      (by decide) (by decide)).1⟩

/-- C2, as stated, fails: a `signKey` with a character outside the base58
alphabet decodes to no byte and a `verifyKey` that decodes to one byte is
accepted; the assembly still yields 64 bytes, zero-padded around the one
decoded byte, and `IxoSignAndBroadcast` signs with that key, broadcasts and
returns `nil`. -/
theorem malformed_key_is_padded :
    base58.Decode "0" = [] ∧ base58.Decode "2g" = [97] ∧
    assemblePrivKey "0" "2g" = List.replicate 32 0 ++ 97 :: List.replicate 31 0 ∧
    (assemblePrivKey "0" "2g").length = 64 ∧
    IxoSignAndBroadcast Sample.cliEnv "msg" Sample.malformedDid =
      (.returned none,
        [.sign "CCzPRoyPQsTxVwoAwTZXcK" (List.replicate 32 0 ++ 97 :: List.replicate 31 0),
          .broadcast ([109, 115, 103] ++ List.replicate 32 0 ++ [109, 115, 103]),
          .print "ok", .print "Committed at block 10. Hash: ABCD"]) := by
  refine ⟨by decide, by decide, by decide, by decide, by decide⟩

/-- C2, amended: the key assembly has no failure. For every `signKey` and
`verifyKey` it yields 64 bytes; byte `i` below 32 is byte `i` of
`decode(signKey)`, or zero past its end; byte `i` from 32 on is byte `i - 32`
of `decode(verifyKey)` or, past its end, byte `i` of `decode(signKey)`, or zero
past the end of both: short decodings are zero-padded and long ones are cut.
`IxoSignAndBroadcast` then calls the signer with this key first, whatever the
keys are. -/
theorem assemblePrivKey_total {Msg : Type} (env : CLIEnv Msg) (msg : Msg)
    (sovrinDid : SovrinDid) (i : Nat) (hi : i < 64) :
    (assemblePrivKey sovrinDid.Secret.SignKey sovrinDid.VerifyKey).length = 64 ∧
    (assemblePrivKey sovrinDid.Secret.SignKey sovrinDid.VerifyKey).getD i 0 =
      (if i < 32 then (base58.Decode sovrinDid.Secret.SignKey).getD i 0
      else if i - 32 < (base58.Decode sovrinDid.VerifyKey).length then
        (base58.Decode sovrinDid.VerifyKey).getD (i - 32) 0
      else (base58.Decode sovrinDid.Secret.SignKey).getD i 0) ∧
    (IxoSignAndBroadcast env msg sovrinDid).2.head? =
      some (Event.sign sovrinDid.Did
        (assemblePrivKey sovrinDid.Secret.SignKey sovrinDid.VerifyKey)) := by
  refine ⟨assemblePrivKey_length _ _, assemblePrivKey_getD _ _ i hi, ?_⟩
  simp only [IxoSignAndBroadcast]
  split
  · rfl
  · split <;> rfl

/-- The amended C2 at the malformed identity and byte 33: the byte is zero,
past the one byte of the decoded `verifyKey`. -/
theorem assemblePrivKey_total_witness :
    33 < 64 ∧
    (assemblePrivKey Sample.malformedDid.Secret.SignKey Sample.malformedDid.VerifyKey).getD 33 0 =
      (if 33 < 32 then (base58.Decode Sample.malformedDid.Secret.SignKey).getD 33 0
      else if 33 - 32 < (base58.Decode Sample.malformedDid.VerifyKey).length then
        (base58.Decode Sample.malformedDid.VerifyKey).getD (33 - 32) 0
      else (base58.Decode Sample.malformedDid.Secret.SignKey).getD 33 0) :=
  ⟨by decide,
    (assemblePrivKey_total Sample.cliEnv "msg" Sample.malformedDid 33 (by decide)).2.1⟩

/-! ## The status check of `update-bond-status` -/

/-- C3: the status check lets a candidate pass exactly when it is one of the
six literals; every other text, the case variant `open` among them, gets the
error that lists the six literals. The check is a function of the candidate
alone. -/
theorem checkBondStatus_iff (status : String) :
    (checkBondStatus status = none ↔
      status ∈ ["PREISSUANCE", "OPEN", "SUSPENDED", "CLOSED", "SETTLEMENT", "ENDED"]) ∧
    (checkBondStatus status = none ∨
      checkBondStatus status = some
        ("The status must be one of \x27PREISSUANCE\x27, \x27OPEN\x27, " ++
          "\x27SUSPENDED\x27, \x27CLOSED\x27, \x27SETTLEMENT\x27 or \x27ENDED\x27")) ∧
    checkBondStatus "open" ≠ none ∧ checkBondStatus "OPEN" = none := by
  refine ⟨?_, ?_, by decide, by decide⟩
  · unfold checkBondStatus PreIssuanceStatus OpenStatus SuspendedStatus ClosedStatus
      SettlementStatus EndedStatus
    simp only [List.mem_cons, List.mem_singleton, List.not_mem_nil, or_false]
    split_ifs <;> simp <;> tauto
  · unfold checkBondStatus
    simp only []
    split_ifs
    · right; rfl
    · left; rfl

/-! ## Signing and broadcasting -/

/-- C8, as stated, fails: when the codec cannot encode the signed transaction,
`IxoSignAndBroadcast` panics with the error and returns nothing to its
caller. -/
theorem marshal_failure_panics :
    Sample.marshalFailEnv.MarshalJSON
      ("msg", Sample.marshalFailEnv.SignIxoMessage (Sample.marshalFailEnv.GetSignBytes "msg")
        Sample.did.Did (assemblePrivKey Sample.did.Secret.SignKey Sample.did.VerifyKey)) =
      .error "unregistered concrete type" ∧
    (IxoSignAndBroadcast Sample.marshalFailEnv "msg" Sample.did).1 =
      .panicked "unregistered concrete type" ∧
    ∀ err, (IxoSignAndBroadcast Sample.marshalFailEnv "msg" Sample.did).1 ≠ .returned err := by
  refine ⟨rfl, rfl, ?_⟩
  intro err h
  have h2 : (IxoSignAndBroadcast Sample.marshalFailEnv "msg" Sample.did).1 =
      .panicked "unregistered concrete type" := rfl
  rw [h2] at h
  exact Outcome.noConfusion h

/-- C8, amended: when serializing the signed transaction fails,
`IxoSignAndBroadcast` panics with the encoding error after the one call of the
signer, and makes no broadcast call; when the serialization gives `bz` and the
broadcast of `bz` fails, the error of the broadcast is returned to the caller,
without a panic. -/
theorem IxoSignAndBroadcast_failures {Msg : Type} (env : CLIEnv Msg) (msg : Msg)
    (sovrinDid : SovrinDid) :
    (∀ err, env.MarshalJSON (msg, env.SignIxoMessage (env.GetSignBytes msg) sovrinDid.Did
          (assemblePrivKey sovrinDid.Secret.SignKey sovrinDid.VerifyKey)) = .error err →
      IxoSignAndBroadcast env msg sovrinDid =
        (.panicked err, [.sign sovrinDid.Did
          (assemblePrivKey sovrinDid.Secret.SignKey sovrinDid.VerifyKey)])) ∧
    (∀ bz err, env.MarshalJSON (msg, env.SignIxoMessage (env.GetSignBytes msg) sovrinDid.Did
          (assemblePrivKey sovrinDid.Secret.SignKey sovrinDid.VerifyKey)) = .ok bz →
      env.BroadcastTx bz = .error err →
      IxoSignAndBroadcast env msg sovrinDid =
        (.returned (some err), [.sign sovrinDid.Did
          (assemblePrivKey sovrinDid.Secret.SignKey sovrinDid.VerifyKey), .broadcast bz])) := by
  constructor
  · intro err h
    simp only [IxoSignAndBroadcast, h]
  · intro bz err h hb
    simp only [IxoSignAndBroadcast, h, hb, List.singleton_append]

/-- The amended C8 in the two failing test environments. -/
theorem IxoSignAndBroadcast_failures_witness :
    IxoSignAndBroadcast Sample.marshalFailEnv "msg" Sample.did =
      (.panicked "unregistered concrete type", [.sign Sample.did.Did
        (assemblePrivKey Sample.did.Secret.SignKey Sample.did.VerifyKey)]) ∧
    IxoSignAndBroadcast Sample.broadcastFailEnv "msg" Sample.did =
      (.returned (some "connection refused"), [.sign Sample.did.Did
        (assemblePrivKey Sample.did.Secret.SignKey Sample.did.VerifyKey),
        .broadcast (Sample.bytesOf "msg" ++ Sample.broadcastFailEnv.SignIxoMessage
          (Sample.bytesOf "msg") Sample.did.Did
          (assemblePrivKey Sample.did.Secret.SignKey Sample.did.VerifyKey))]) :=
  ⟨(IxoSignAndBroadcast_failures Sample.marshalFailEnv "msg" Sample.did).1 _ rfl,
    (IxoSignAndBroadcast_failures Sample.broadcastFailEnv "msg" Sample.did).2 _ _ rfl rfl⟩

/-- C9: in `update-bond-status`, for an identity that parses and a status that
is none of the six literals, the command returns the status error and nothing
has happened before: no message is built, the signer is not called and nothing
is broadcast. -/
theorem GetCmdUpdateBondStatus_illegal_status {Msg : Type} (env : CLIEnv Msg)
    (senderDid status sovrinJson : String) (sovrinDid : SovrinDid)
    (hparse : env.jsonUnmarshal sovrinJson = .ok sovrinDid)
    (hstatus : status ∉ ["PREISSUANCE", "OPEN", "SUSPENDED", "CLOSED", "SETTLEMENT", "ENDED"]) :
    GetCmdUpdateBondStatus env senderDid status sovrinJson =
      (.returned (some statusErrorText), []) := by
  have hcheck : checkBondStatus status = some statusErrorText := by
    simp only [List.mem_cons, List.mem_singleton, List.not_mem_nil, or_false, not_or] at hstatus
    unfold checkBondStatus PreIssuanceStatus OpenStatus SuspendedStatus ClosedStatus
      SettlementStatus EndedStatus
    simp only []
    rw [if_pos hstatus]
  simp only [GetCmdUpdateBondStatus, unmarshalSovrinDID, hparse, hcheck]

/-- C9 at the status `open` with the example identity: the command returns the
error with an empty trace. -/
theorem GetCmdUpdateBondStatus_illegal_status_witness :
    Sample.cliEnv.jsonUnmarshal "did" = .ok Sample.did ∧
    "open" ∉ ["PREISSUANCE", "OPEN", "SUSPENDED", "CLOSED", "SETTLEMENT", "ENDED"] ∧
    GetCmdUpdateBondStatus Sample.cliEnv "sender" "open" "did" =
      (.returned (some statusErrorText), []) :=
  ⟨rfl, by decide,
    GetCmdUpdateBondStatus_illegal_status Sample.cliEnv "sender" "open" "did" Sample.did
      rfl (by decide)⟩

/-! ## The REST handler -/

/-- For every request whose `projectDoc` parses and whose `didDoc` does not, the
handler writes the status 400 and then panics on `err.Error()`, since `err` is
the `nil` result of parsing `projectDoc`: no body is written. -/
theorem CreateProjectRequestHandler_didDoc_error {ProjectDoc Msg Res : Type}
    (env : RestEnv ProjectDoc Msg Res) (projectDocParam didDocParam : String)
    (projectDoc : ProjectDoc) (sovrinErr : String)
    (hdoc : env.unmarshalProjectDoc projectDocParam = .ok projectDoc)
    (hdid : env.unmarshalSovrinDid didDocParam = .error sovrinErr) :
    CreateProjectRequestHandler env projectDocParam didDocParam =
      (.panicked nilDereference, [.writeHeader 400]) := by
  simp only [CreateProjectRequestHandler, hdoc, hdid, errOf, errorText]

/-- C10 at a request whose `projectDoc` is an empty JSON object and whose
`didDoc` is not JSON: `projectDoc` parses, `didDoc` gives a parse error, and
the handler writes the status 400 and panics with a nil dereference instead of
writing the body with the parse error. -/
theorem CreateProjectRequestHandler_nil_error :
    Sample.restEnv.unmarshalProjectDoc "\x7b\x7d" = .ok "\x7b\x7d" ∧
    Sample.restEnv.unmarshalSovrinDid "not json" =
      .error "invalid character looking for beginning of value" ∧
    CreateProjectRequestHandler Sample.restEnv "\x7b\x7d" "not json" =
      (.panicked "runtime error: invalid memory address or nil pointer dereference",
        [.writeHeader 400]) := by
  refine ⟨rfl, rfl, by decide⟩

end Ixo

/-! ## The payments parameters -/

namespace Payments

open sdk

theorem LT_ZeroDec (d : Dec) : d.LT ZeroDec = decide (d.int < 0) := rfl

theorem IsAnyNegative_eq (coins : Coins) :
    coins.IsAnyNegative = coins.any (fun coin => decide (coin.Amount < 0)) := rfl

/-- The result of `ValidateParams` is the violation of the first negative field
in the order of the tests, and `nil` when no field is negative. -/
theorem ValidateParams_eq_head (params : Params) :
    ValidateParams params = (negativeFields params).head?.map (violationText params) := by
  unfold ValidateParams negativeFields
  simp only [LT_ZeroDec, IsAnyNegative_eq, Field.all, List.filter_cons, List.filter_nil,
    Field.isNegative]
  by_cases h1 : params.IxoFactor.int < 0 <;>
  by_cases h2 : params.ClaimFeeAmount.any (fun coin => decide (coin.Amount < 0)) = true <;>
  by_cases h3 : params.EvaluationFeeAmount.any (fun coin => decide (coin.Amount < 0)) = true <;>
  by_cases h4 : params.NodeFeePercentage.int < 0 <;>
  by_cases h5 : params.EvaluationPayFeePercentage.int < 0 <;>
  by_cases h6 : params.EvaluationPayNodeFeePercentage.int < 0 <;>
  simp only [h1, h2, h3, h4, h5, h6, decide_True, decide_False, if_true, if_false,
    List.head?_cons, List.head?_nil, Option.map_some', Option.map_none', violationText,
    Field.name, Field.valueText, Bool.false_eq_true] <;>
  rfl

/-- C4, as stated, fails: the default parameters with `IxoFactor = -1.0` and
`NodeFeePercentage = -0.1` have two negative fields, and `ValidateParams`
reports one violation, that of `IxoFactor`. -/
theorem ValidateParams_not_exhaustive :
    negativeFields Sample.twoNegative = [.IxoFactor, .NodeFeePercentage] ∧
    ValidateParams Sample.twoNegative =
      some "payments parameter IxoFactor should be positive, is -1.000000000000000000 " ∧
    (violations Sample.twoNegative).length ≠ (negativeFields Sample.twoNegative).length := by
  refine ⟨by decide, by decide, by decide⟩

/-- C4, amended: `ValidateParams` stops at the first test that fails. For every
`Params` value it reports the violation of the first negative field in the
order `IxoFactor`, `ClaimFeeAmount`, `EvaluationFeeAmount`, `NodeFeePercentage`,
`EvaluationPayFeePercentage`, `EvaluationPayNodeFeePercentage`, and nothing
else: one violation when one or more fields are negative, none when no field
is. -/
theorem ValidateParams_first_violation (params : Params) :
    ValidateParams params =
      (negativeFields params).head?.map (fun field =>
        "payments parameter " ++ field.name ++ " should be positive, is " ++
          field.valueText params ++ " ") ∧
    (violations params).length = min 1 (negativeFields params).length := by
  have h := ValidateParams_eq_head params
  refine ⟨h, ?_⟩
  unfold violations
  rw [h]
  cases negativeFields params with
  | nil => rfl
  | cons field rest => simp

/-- C5: `ValidateParams` returns `nil` exactly when the four decimal fields are
at least zero and no coin of the two fee amounts has an amount below zero.
Parameters that are all zero pass, and so does a node fee of 2.5: there is no
upper bound. -/
theorem ValidateParams_nil_iff (params : Params) :
    (ValidateParams params = none ↔
      0 ≤ params.IxoFactor.int ∧
      0 ≤ params.NodeFeePercentage.int ∧
      0 ≤ params.EvaluationPayFeePercentage.int ∧
      0 ≤ params.EvaluationPayNodeFeePercentage.int ∧
      (∀ coin ∈ params.ClaimFeeAmount, 0 ≤ coin.Amount) ∧
      (∀ coin ∈ params.EvaluationFeeAmount, 0 ≤ coin.Amount)) ∧
    ValidateParams Sample.allZero = none ∧
    ValidateParams Sample.largePercentage = none := by
  refine ⟨?_, by decide, by decide⟩
  rw [ValidateParams_eq_head]
  simp only [Option.map_eq_none', List.head?_eq_none_iff, negativeFields,
    List.filter_eq_nil_iff, Field.all, List.mem_cons, List.mem_singleton, List.not_mem_nil,
    or_false, forall_eq_or_imp, forall_eq, Field.isNegative, Bool.not_eq_true,
    decide_eq_false_iff_not, not_lt, List.any_eq_false]
  tauto

/-- C6: for every native token, `ValidateParams` accepts `DefaultParams()`, with
no violation; the defaults are 1.0, 60000000 and 40000000 units of the token,
0.5, 0.1 and 0.2. -/
theorem ValidateParams_DefaultParams (IxoNativeToken : String) :
    ValidateParams (DefaultParams IxoNativeToken) = none ∧
    violations (DefaultParams IxoNativeToken) = [] ∧
    (DefaultParams IxoNativeToken).IxoFactor.String = "1.000000000000000000" ∧
    (DefaultParams IxoNativeToken).ClaimFeeAmount = [⟨IxoNativeToken, 60000000⟩] ∧
    (DefaultParams IxoNativeToken).EvaluationFeeAmount = [⟨IxoNativeToken, 40000000⟩] ∧
    (DefaultParams IxoNativeToken).NodeFeePercentage.String = "0.500000000000000000" ∧
    (DefaultParams IxoNativeToken).EvaluationPayFeePercentage.String = "0.100000000000000000" ∧
    (DefaultParams IxoNativeToken).EvaluationPayNodeFeePercentage.String =
      "0.200000000000000000" := by
  refine ⟨rfl, rfl, ?_, rfl, rfl, ?_, ?_, ?_⟩
  · show OneDec.String = _
    decide
  · show (NewDecWithPrec 5 1).String = _
    decide
  · show (NewDecWithPrec 1 1).String = _
    decide
  · show (NewDecWithPrec 2 1).String = _
    decide

/-- C7: for every `Params` value with exactly one negative field,
`ValidateParams` returns exactly one violation, whose text holds the name of
that field and the text of its value. -/
theorem ValidateParams_single_violation (params : Params) (field : Field)
    (h : negativeFields params = [field]) :
    ValidateParams params =
      some ("payments parameter " ++ field.name ++ " should be positive, is " ++
        field.valueText params ++ " ") ∧
    (violations params).length = 1 := by
  have h2 := ValidateParams_eq_head params
  rw [h] at h2
  refine ⟨h2, ?_⟩
  unfold violations
  rw [h2]
  rfl

/-- C7 at the default parameters with `NodeFeePercentage = -0.1`: the one
negative field is `NodeFeePercentage`, and the one violation names it and holds
`-0.100000000000000000`. -/
theorem ValidateParams_single_violation_witness :
    negativeFields Sample.negativeNodeFee = [.NodeFeePercentage] ∧
    ValidateParams Sample.negativeNodeFee =
      some ("payments parameter " ++ "NodeFeePercentage" ++ " should be positive, is " ++
        "-0.100000000000000000" ++ " ") ∧
    (violations Sample.negativeNodeFee).length = 1 :=
  ⟨by decide,
    (ValidateParams_single_violation Sample.negativeNodeFee .NodeFeePercentage (by decide)).1.trans
      (by decide),
    (ValidateParams_single_violation Sample.negativeNodeFee .NodeFeePercentage (by decide)).2⟩

end Payments
